import Mathlib

/-!
Verification of the BLE connection-management layer of the micro:bit
ML-trainer application, as implemented by the Capacitor (iOS bridge)
session `CapacitorMicrobitBluetooth`
(`src/script/microbit-interfacing/CapacitorMicrobitBluetooth.ts`).

The development shallowly embeds the session's data model and operations:

* the per-pin activation counters and `setPin` / `setPinInternal`;
* the LED-matrix payload encoder of `setLeds`;
* the payload normalizer `valueToDataView` and the button / accelerometer /
  UART notification callbacks;
* the output write queue (`queueAction` / `processActionQueue`);
* the connect / disconnect state machine (`connect`, `disconnectInternal`),
  with the transport (Capacitor Bluetooth LE plugin) abstracted as an
  oracle giving the outcome of each plugin call, and an event trace
  recording every transport operation and state callback in program order.

JavaScript numbers that are used as counters are modelled as `Int`
(the pin counters can be driven negative before clamping); byte values
are `Nat` with explicit `% 256` where the typed arrays wrap.
-/

namespace MLTrainer

/-! ## Pin activation counters (`setPin` / `setPinInternal`)

Source, `CapacitorMicrobitBluetooth.ts`:

```
setPin(pin, on) {
  let stateCounter = this.pinStateCounters.get(pin) ?? 0;
  stateCounter = stateCounter + (on ? 1 : -1);
  const changed = stateCounter === 0 || stateCounter === 1;
  this.pinStateCounters.set(pin, Math.max(0, stateCounter));
  if (changed) { this.setPinInternal(pin, on); }
}
```

`setPinInternal` enqueues the physical IO write, so a call to it is
exactly one "physical pin write issued".
-/

/-- Lookup in the `pinStateCounters` map (`Map.get`, `?? 0` handled by caller). -/
def lookupPin (counters : List (Nat × Int)) (pin : Nat) : Option Int :=
  (counters.find? (fun p => p.1 == pin)).map (·.2)

/-- `pinStateCounters.set pin v` (JS `Map.set`: replace in place, else append). -/
def storePin (counters : List (Nat × Int)) (pin : Nat) (v : Int) : List (Nat × Int) :=
  if (counters.find? (fun p => p.1 == pin)).isSome then
    counters.map (fun p => if p.1 == pin then (p.1, v) else p)
  else
    counters ++ [(pin, v)]

/-- `setPin` from the source, returning the updated counter map together with
`some level` when `setPinInternal(pin, level)` was invoked (a physical write
was enqueued) and `none` when it was not. -/
def setPin (counters : List (Nat × Int)) (pin : Nat) (isOn : Bool) :
    List (Nat × Int) × Option Bool :=
  let stateCounter := (lookupPin counters pin).getD 0
  let stateCounter := stateCounter + (if isOn then 1 else -1)
  let changed := stateCounter == 0 || stateCounter == 1
  (storePin counters pin (max 0 stateCounter), if changed then some isOn else none)

/-- Run a sequence of `setPin` calls on one pin, collecting the physical
writes (the levels handed to `setPinInternal`) in order. -/
def runSetPins (pin : Nat) (cmds : List Bool) (counters : List (Nat × Int)) :
    List (Nat × Int) × List Bool :=
  match cmds with
  | [] => (counters, [])
  | c :: rest =>
    let (counters', w) := setPin counters pin c
    let (countersF, ws) := runSetPins pin rest counters'
    (countersF, (w.toList.map (fun _ => c)) ++ ws)

/-- The successive stored values of one pin's activation counter along a call
sequence (starting from the initial value held in `counters`). -/
def counterTrace (pin : Nat) (cmds : List Bool) (counters : List (Nat × Int)) : List Int :=
  match cmds with
  | [] => [(lookupPin counters pin).getD 0]
  | c :: rest =>
    let (counters', _) := setPin counters pin c
    ((lookupPin counters pin).getD 0) :: counterTrace pin rest counters'

/-- Count of net `0 → 1` and `1 → 0` edge transitions in a counter trace. -/
def countEdges : List Int → Nat
  | a :: b :: rest =>
    (if (a == 0 && b == 1) || (a == 1 && b == 0) then 1 else 0) + countEdges (b :: rest)
  | _ => 0

/-! ## LED matrix payload (`setLeds`)

Source encoder, `CapacitorMicrobitBluetooth.ts` (`setLeds`):

```
for (let i = 0; i < 5; i++) {
  dataView.setUint8(i,
    matrix.slice(i * 5, 5 + i * 5)
      .reduce((byte, bool) => (byte << 1) | (bool ? 1 : 0), 0));
}
```
-/

/-- One row's byte: the `reduce` above (`(byte << 1) | bit` on values below
`2^8` is `byte * 2 + bit`). -/
def encodeRow (row : List Bool) : Nat :=
  row.foldl (fun byte b => byte * 2 + (if b then 1 else 0)) 0

/-- The 5-byte LED matrix payload built by `setLeds` from the 25-entry
boolean grid (`slice (i*5, 5 + i*5)` is `drop (i*5)` then `take 5`). -/
def setLedsBytes (matrix : List Bool) : List Nat :=
  (List.range 5).map (fun i => encodeRow ((matrix.drop (i * 5)).take 5))

/-- Modelled from the spec: decoding of one payload byte back into a row of
the grid, following the documented layout "each byte's low 5 bits = one row,
MSB-first column order" (the inverse direction lives on the device, not in
this repository). -/
def decodeRow (byte : Nat) : List Bool :=
  (List.range 5).map (fun j => byte.testBit (4 - j))

/-- Modelled from the spec: decoding the 5-byte payload back into the
25-entry boolean grid, row by row. -/
def decodeLeds (bytes : List Nat) : List Bool :=
  (bytes.map decodeRow).flatten

/-! ## Payload normalization and notification decode callbacks

`valueToDataView` (source lines 578–594) normalizes the three payload shapes
the plugin hands back (hex string / number array / binary buffer) into one
byte sequence; the button, accelerometer and UART listener callbacks then
read fixed offsets out of it.  A JS `DataView.getUint8` / `getInt16` read
outside the buffer throws a `RangeError`; those reads are modelled in
`Except`, with `Except.error` standing for the thrown exception. -/

/-- The shapes in which `event?.value` can arrive from the plugin
(`undef` models `event` without a `value`, for which
`new Uint8Array(undefined)` yields an empty buffer). -/
inductive BleValue
  | hexStr (s : String)
  | numArr (a : List Nat)
  | binBuf (bytes : List Nat)
  | undef
deriving DecidableEq, Repr

/-- Hex digit test for JS `parseInt(chunk, 16)`. -/
def isHexDigit (c : Char) : Bool :=
  c.isDigit || ('a' ≤ c && c ≤ 'f') || ('A' ≤ c && c ≤ 'F')

/-- Value of one hex digit. -/
def hexDigitVal (c : Char) : Nat :=
  if c.isDigit then c.toNat - '0'.toNat
  else if 'a' ≤ c && c ≤ 'f' then c.toNat - 'a'.toNat + 10
  else c.toNat - 'A'.toNat + 10

/-- JS `parseInt(chunk, 16)` on a 1–2 character chunk, as stored into a
`Uint8Array`: the maximal hex-digit prefix is parsed; no digits parse to
`NaN`, which the typed array stores as `0`. -/
def parseIntHexChunk (chunk : List Char) : Nat :=
  (chunk.takeWhile isHexDigit).foldl (fun n c => 16 * n + hexDigitVal c) 0

/-- `s.match(/.{1,2}/g)`: split into chunks of two characters (a trailing
odd character forms a 1-character chunk); an empty string gives `null`,
which `?.map ... || []` turns into the empty list. -/
def chunkPairs : List Char → List (List Char)
  | [] => []
  | [c] => [[c]]
  | a :: b :: rest => [a, b] :: chunkPairs rest

/-- `valueToDataView` from the source: normalize any payload shape into the
byte sequence of the resulting `DataView` (typed-array stores wrap mod 256). -/
def valueToDataView : BleValue → List Nat
  | .hexStr s => (chunkPairs s.data).map (fun chunk => parseIntHexChunk chunk % 256)
  | .numArr a => a.map (· % 256)
  | .binBuf bytes => bytes
  | .undef => []

/-- `DataView.getUint8`: throws when the offset is outside the buffer. -/
def getUint8 (bytes : List Nat) (i : Nat) : Except String Nat :=
  match bytes[i]? with
  | some b => .ok b
  | none => .error "RangeError: offset outside the bounds of the DataView"

/-- `DataView.getInt16(i, true)`: little-endian signed 16-bit read; throws
when `i + 2` exceeds the buffer. -/
def getInt16LE (bytes : List Nat) (i : Nat) : Except String Int :=
  match bytes[i]?, bytes[i + 1]? with
  | some lo, some hi =>
    let u := lo % 256 + 256 * (hi % 256)
    .ok (if u < 32768 then (u : Int) else (u : Int) - 65536)
  | _, _ => .error "RangeError: offset outside the bounds of the DataView"

/-- `MBSpecs.ButtonStates` (wire contract: 0 = released, 1 = pressed,
2 = long-pressed). -/
inductive ButtonState
  | released
  | pressed
  | longPressed
deriving DecidableEq, Repr

/-- Body of the button notification listener (source lines 547–558):
normalize the payload, read byte 0, map it to a `ButtonState`. -/
def buttonListenerBody (v : BleValue) : Except String ButtonState := do
  let dataView := valueToDataView v
  let stateId ← getUint8 dataView 0
  let state := ButtonState.released
  let state := if stateId == 1 then ButtonState.pressed else state
  let state := if stateId == 2 then ButtonState.longPressed else state
  pure state

/-- Body of the accelerometer notification listener (source lines 616–636):
normalize the payload and read x, y, z as little-endian `Int16` at offsets
0, 2, 4. -/
def accelListenerBody (v : BleValue) : Except String (Int × Int × Int) := do
  let dataView := valueToDataView v
  let x ← getInt16LE dataView 0
  let y ← getInt16LE dataView 2
  let z ← getInt16LE dataView 4
  pure (x, y, z)

/-- Body of the UART notification listener (source lines 666–674): copy all
`byteLength` bytes out of the view (the loop never reads past the end), to
be turned into a string with `String.fromCharCode`. -/
def uartListenerBody (v : BleValue) : Except String (List Nat) :=
  let dataView := valueToDataView v
  .ok ((List.range dataView.length).map (fun i => dataView.getD i 0))

/-- Whether an `Except` computation completed without throwing. -/
def exceptOk {α : Type} : Except String α → Bool
  | .ok _ => true
  | .error _ => false

/-! ## Output write queue (`queueAction` / `processActionQueue`)

Source (lines 790–822):

```
queueAction = (action) => {
  this.outputWriteQueue.queue.push(action);
  this.processActionQueue();
};
processActionQueue = () => {
  if (!this.outputCharacteristics) {
    this.outputWriteQueue = { busy: false, queue: [] };
    return;
  }
  if (this.outputWriteQueue.busy) return;
  const action = this.outputWriteQueue.queue.shift();
  if (action) {
    this.outputWriteQueue.busy = true;
    action(this.outputCharacteristics)
      .then(() => { busy = false; this.processActionQueue(); })
      .catch(e => { logError(e); busy = false; this.processActionQueue(); });
  }
};
```

A queued action is a closure over the output characteristics whose only
observables here are its identity and whether its promise rejects; it is
modelled as an `id`/`ok` pair.  The promise in flight is modelled by the
`running` field (the source tracks it only through the `busy` flag and the
pending `.then`/`.catch` continuation). -/

/-- The placeholder objects `listenToOutputServices` stores for the three
output endpoints (`{uuid, service, deviceId}`). -/
structure BleCharacteristicRef where
  uuid : String
  service : String
  deviceId : String
deriving DecidableEq, Repr

/-- The session's resolved output characteristic handles. -/
structure OutputCharacteristics where
  io : BleCharacteristicRef
  matrix : BleCharacteristicRef
  uart : BleCharacteristicRef
deriving DecidableEq, Repr

/-- One queued write action: its identity and whether its promise resolves. -/
structure QueuedAction where
  id : Nat
  ok : Bool
deriving DecidableEq, Repr

/-- The `outputWriteQueue` field. -/
structure WriteQueue where
  busy : Bool
  queue : List QueuedAction
deriving DecidableEq, Repr

/-- Queue state machine: the source's `outputWriteQueue` plus the action
whose promise is currently in flight (`busy` is `true` exactly while one
is). -/
structure QueueMachine where
  wq : WriteQueue
  running : Option QueuedAction
deriving DecidableEq, Repr

/-- Observable events of the write queue. -/
inductive QEv
  | reset
  | started (id : Nat)
  | settledOk (id : Nat)
  | errorLogged (id : Nat)
deriving DecidableEq, Repr

/-- `processActionQueue` (one synchronous invocation: the `.then`/`.catch`
continuations run later and are modelled by `settleRunning`). -/
def processActionQueue (handles : Option OutputCharacteristics) (m : QueueMachine) :
    QueueMachine × List QEv :=
  if handles.isNone then
    ({ wq := { busy := false, queue := [] }, running := m.running }, [QEv.reset])
  else if m.wq.busy then (m, [])
  else
    match m.wq.queue with
    | [] => (m, [])
    | action :: rest =>
      ({ wq := { busy := true, queue := rest }, running := some action },
        [QEv.started action.id])

/-- The `.then`/`.catch` continuation of the running action's promise: log
the error if it rejected, clear `busy`, re-enter `processActionQueue`. -/
def settleRunning (handles : Option OutputCharacteristics) (m : QueueMachine) :
    QueueMachine × List QEv :=
  match m.running with
  | none => (m, [])
  | some action =>
    let settleEv := if action.ok then QEv.settledOk action.id else QEv.errorLogged action.id
    let (m', evs) :=
      processActionQueue handles { wq := { m.wq with busy := false }, running := none }
    (m', settleEv :: evs)

/-- `queueAction`: push the action and synchronously call
`processActionQueue`. -/
def queueAction (handles : Option OutputCharacteristics) (m : QueueMachine)
    (action : QueuedAction) : QueueMachine × List QEv :=
  processActionQueue handles { m with wq := { m.wq with queue := m.wq.queue ++ [action] } }

/-- Enqueue a batch of actions back to back in one synchronous turn. -/
def enqueueAll (handles : Option OutputCharacteristics) (m : QueueMachine) :
    List QueuedAction → QueueMachine × List QEv
  | [] => (m, [])
  | a :: rest =>
    let (m1, evs1) := queueAction handles m a
    let (m2, evs2) := enqueueAll handles m1 rest
    (m2, evs1 ++ evs2)

/-- Drive the event loop: settle the running promise repeatedly until the
machine is idle (`fuel` bounds the number of settles). -/
def runToIdle (handles : Option OutputCharacteristics) :
    Nat → QueueMachine → QueueMachine × List QEv
  | 0, m => (m, [])
  | fuel + 1, m =>
    if m.running.isSome then
      let (m1, evs1) := settleRunning handles m
      let (m2, evs2) := runToIdle handles fuel m1
      (m2, evs1 ++ evs2)
    else (m, [])

/-- The idle machine a session starts with. -/
def idleQueue : QueueMachine := { wq := { busy := false, queue := [] }, running := none }

/-- Full observable trace of enqueueing a batch of actions synchronously on
an idle queue and letting the event loop drain it. -/
def queueScenario (handles : Option OutputCharacteristics) (acts : List QueuedAction) :
    List QEv :=
  let (m1, evs1) := enqueueAll handles idleQueue acts
  evs1 ++ (runToIdle handles acts.length m1).2

/-- Ids of the actions executed (invoked), in order. -/
def startedIds : List QEv → List Nat
  | [] => []
  | QEv.started i :: rest => i :: startedIds rest
  | _ :: rest => startedIds rest

/-- Ids whose failure was logged, in order. -/
def erroredIds : List QEv → List Nat
  | [] => []
  | QEv.errorLogged i :: rest => i :: erroredIds rest
  | _ :: rest => erroredIds rest

/-- Scan a trace checking that no action starts while another is in flight:
every `started` must occur with the previous action already settled. -/
def oneAtATimeFrom : Bool → List QEv → Bool
  | _, [] => true
  | inFlight, QEv.started _ :: rest => !inFlight && oneAtATimeFrom true rest
  | _, QEv.settledOk _ :: rest => oneAtATimeFrom false rest
  | _, QEv.errorLogged _ :: rest => oneAtATimeFrom false rest
  | inFlight, QEv.reset :: rest => oneAtATimeFrom inFlight rest

/-- At most one action in flight at any point of a trace. -/
def oneAtATime (tr : List QEv) : Bool := oneAtATimeFrom false tr

/-- The expected drain trace: each action starts, then settles (success or
logged error), in enqueue order. -/
def drainEvs : List QueuedAction → List QEv
  | [] => []
  | a :: rest =>
    QEv.started a.id ::
      (if a.ok then QEv.settledOk a.id else QEv.errorLogged a.id) :: drainEvs rest

/-! ## The GATT session state machine (`connect` / `disconnectInternal`)

The session object's fields are embedded in `SessionState`; every call into
the Capacitor Bluetooth LE plugin and every state-updater callback is
recorded as an event, in program order.  The plugin's behaviour (which calls
succeed, which throw) is abstracted as a `ConnectOracle`; plugin calls whose
failures the source swallows with only a log line keep their trace event but
need no oracle outcome.  Reads of the model-number characteristic are
abstracted to "a hardware version, or a throw" (the byte-level decode of the
model string is not load-bearing for any property proved here). -/

/-- `DeviceRequestStates` (modelled from the spec's INPUT/OUTPUT roles; the
declaring module `MicrobitConnection.ts` is not part of the sources). -/
inductive DeviceRequestState
  | input
  | output
deriving DecidableEq, Repr

/-- Opaque distinct UUID strings standing for the `MBSpecs.Services` /
`MBSpecs.Characteristics` constants (their module is not part of the
sources; only their identity matters here). -/
def ACCEL_SERVICE : String := "accel-service"

/-- Accelerometer data characteristic UUID. -/
def ACCEL_DATA : String := "accel-data"

/-- Button service UUID. -/
def BUTTON_SERVICE : String := "button-service"

/-- Button A characteristic UUID. -/
def BUTTON_A : String := "button-a"

/-- Button B characteristic UUID. -/
def BUTTON_B : String := "button-b"

/-- UART service UUID. -/
def UART_SERVICE : String := "uart-service"

/-- UART TX characteristic UUID (notifications from the device). -/
def UART_DATA_TX : String := "uart-data-tx"

/-- UART RX characteristic UUID (writes to the device). -/
def UART_DATA_RX : String := "uart-data-rx"

/-- IO pin service UUID. -/
def IO_SERVICE : String := "io-service"

/-- IO pin data characteristic UUID. -/
def IO_DATA : String := "io-data"

/-- LED service UUID. -/
def LED_SERVICE : String := "led-service"

/-- LED matrix state characteristic UUID. -/
def LED_MATRIX_STATE : String := "led-matrix-state"

/-- Device information service UUID. -/
def DEVICE_INFO_SERVICE : String := "device-info-service"

/-- Model number characteristic UUID. -/
def MODEL_NUMBER : String := "model-number"

/-- The disconnection-cause tag handed to `stateOnDisconnected`
(`false` / `'autoReconnect'` / `'connect'` in the source). -/
inductive ReconnectFlag
  | noAuto
  | autoReconnect
  | connect
deriving DecidableEq, Repr

/-- Observable events of a session run: plugin calls, delays and
state-updater callbacks, in program order. -/
inductive Ev
  | initializePlugin
  | checkEnabled
  | getConnectedDevices
  | cleanupDisconnect
  | waitMs (ms : Nat)
  | rawConnect (attempt : Nat)
  | discoverServices
  | readModelNumber (attempt : Nat)
  | addListener (key : String)
  | startNotifications (key : String)
  | disconnectInvoked (userTriggered : Bool)
  | transportDisconnect
  | removeListener (key : String)
  | stateOnConnected (s : DeviceRequestState)
  | stateOnAssigned (s : DeviceRequestState) (version : Nat)
  | stateOnReady (s : DeviceRequestState)
  | stateOnDisconnected (s : DeviceRequestState) (cause : ReconnectFlag)
deriving DecidableEq, Repr

/-- The session object's mutable fields. -/
structure SessionState where
  inUseAs : List DeviceRequestState
  outputCharacteristics : Option OutputCharacteristics
  deviceId : Option String
  duringExplicitConnectDisconnect : Int
  connecting : Bool
  isReconnect : Bool
  finalAttempt : Bool
  isConnected : Bool
  notificationListeners : List String
  reconnectCooldownArmed : Bool
  pinStateCounters : List (Nat × Int)
  queueMachine : QueueMachine
deriving Repr

/-- Outcomes of the plugin calls a run of `connect` / `disconnectInternal`
can make.  `rawConnectOk n` is the outcome of the `n`-th (0-based) raw
`plugin.connect` attempt; `modelNumberRead n` is the `n`-th model-number
read, `none` meaning the read threw. -/
structure ConnectOracle where
  initializeOk : Bool
  alreadyConnected : Bool
  rawConnectOk : Nat → Bool
  modelNumberRead : Nat → Option Nat
  accelStartOk : Bool
  buttonAStartOk : Bool
  buttonBStartOk : Bool
  uartInputStartOk : Bool
  uartOutputStartOk : Bool
  transportDisconnectOk : Bool

/-- The internal step-level errors the connect sequence can raise. -/
inductive StepError
  | deviceIdMissing
  | initializeFailed
  | rawConnectFailed
  | staleLastError
  | modelNumberFailed
  | accelerometerFailed
  | uartOutputFailed
deriving DecidableEq, Repr

/-- What `connect` can throw to its caller: the normalized
`new Error('Failed to establish a connection!')`, or (were the source ever
to leak one) a raw step-level error. -/
inductive ThrownError
  | failedToEstablish
  | step (e : StepError)
deriving DecidableEq, Repr

/-- `disconnectInternal(userTriggered, updateState)` from the source:
increment the reentrancy counter; issue the low-level plugin disconnect when
connected (swallowing its error; `isConnected` is only cleared when the call
succeeds); decrement the counter in the `finally`; then remove every stored
notification listener, clear the listener map, arm the 3.5 s reconnect
cooldown, and finally notify the roles in use of the disconnection. -/
def disconnectInternal (userTriggered updateState : Bool) (st : SessionState)
    (o : ConnectOracle) : SessionState × List Ev :=
  let stIn := { st with duringExplicitConnectDisconnect :=
    st.duringExplicitConnectDisconnect + 1 }
  let (st1, evs1) :=
    match stIn.deviceId, stIn.isConnected with
    | some _, true =>
      if o.transportDisconnectOk then
        ({ stIn with isConnected := false }, [Ev.transportDisconnect])
      else (stIn, [Ev.transportDisconnect])
    | _, _ => (stIn, [])
  let st2 := { st1 with duringExplicitConnectDisconnect :=
    st1.duringExplicitConnectDisconnect - 1 }
  let evs2 := st2.notificationListeners.map Ev.removeListener
  let st3 := { st2 with notificationListeners := [], reconnectCooldownArmed := true }
  let evs3 :=
    if updateState then
      st3.inUseAs.map (fun s =>
        Ev.stateOnDisconnected s
          (if userTriggered || st3.finalAttempt then ReconnectFlag.noAuto
           else if st3.isReconnect then ReconnectFlag.autoReconnect
           else ReconnectFlag.connect))
    else []
  (st3, Ev.disconnectInvoked userTriggered :: (evs1 ++ evs2 ++ evs3))

/-- Public `disconnect()`: `disconnectInternal(true)`. -/
def disconnect (st : SessionState) (o : ConnectOracle) : SessionState × List Ev :=
  disconnectInternal true true st o

/-- `maxRetries` of the raw connect loop. -/
def maxConnectRetries : Nat := 2

/-- The raw `plugin.connect` retry loop (source lines 256–344): attempts
`0 .. maxRetries`; before each retry a cleanup `plugin.disconnect` and a
`2000 + 1000·attempt` ms backoff; a successful attempt settles for 500 ms
and breaks.  Returns the index of the successful attempt, or `none` when
all attempts threw. -/
def rawConnectLoopFrom (o : ConnectOracle) : Nat → Nat → Option Nat × List Ev
  | _, 0 => (none, [])
  | attempt, fuel + 1 =>
    let pre : List Ev :=
      if attempt > 0 then [Ev.cleanupDisconnect, Ev.waitMs (2000 + 1000 * attempt)] else []
    if o.rawConnectOk attempt then
      (some attempt, pre ++ [Ev.rawConnect attempt, Ev.waitMs 500])
    else if attempt == maxConnectRetries then
      (none, pre ++ [Ev.rawConnect attempt])
    else
      let (r, evs) := rawConnectLoopFrom o (attempt + 1) fuel
      (r, pre ++ [Ev.rawConnect attempt] ++ evs)

/-- `getModelNumber` with the inline single retry of the connect sequence
(source lines 394–402): on a failed first read, wait 500 ms and read once
more; a second failure escalates. -/
def getModelNumberStep (o : ConnectOracle) : Option StepError × Nat × List Ev :=
  match o.modelNumberRead 0 with
  | some v => (none, v, [Ev.readModelNumber 0])
  | none =>
    match o.modelNumberRead 1 with
    | some v => (none, v, [Ev.readModelNumber 0, Ev.waitMs 500, Ev.readModelNumber 1])
    | none => (some StepError.modelNumberFailed, 0,
        [Ev.readModelNumber 0, Ev.waitMs 500, Ev.readModelNumber 1])

/-- `Map.set` on the listener map: keys keep insertion order, re-setting an
existing key replaces its value in place. -/
def addListenerKey (ks : List String) (k : String) : List String :=
  if ks.contains k then ks else ks ++ [k]

/-- The notification event key
`notification|deviceId|service|characteristic`. -/
def notifKey (dev service characteristic : String) : String :=
  "notification|" ++ dev ++ "|" ++ service ++ "|" ++ characteristic

/-- `listenToAccelerometer`: register the listener (stored before
`startNotifications` is attempted), then start notifications; a failure
propagates. -/
def listenToAccelerometer (dev : String) (o : ConnectOracle) (st : SessionState) :
    Option StepError × SessionState × List Ev :=
  let key := notifKey dev ACCEL_SERVICE ACCEL_DATA
  let st1 := { st with notificationListeners := addListenerKey st.notificationListeners key }
  ((if o.accelStartOk then none else some StepError.accelerometerFailed),
    st1, [Ev.addListener key, Ev.startNotifications key])

/-- `listenToButton`: same shape; a `startNotifications` failure is caught
and only logged by `listenToInputServices`, leaving no observable difference
(the listener was already stored), so no oracle outcome is consulted. -/
def listenToButton (dev characteristic : String) (st : SessionState) :
    SessionState × List Ev :=
  let key := notifKey dev BUTTON_SERVICE characteristic
  ({ st with notificationListeners := addListenerKey st.notificationListeners key },
    [Ev.addListener key, Ev.startNotifications key])

/-- `listenToUART`: both the INPUT and the OUTPUT subscription use the same
service/characteristic pair, hence the same event key. -/
def listenToUART (dev : String) (st : SessionState) : SessionState × List Ev :=
  let key := notifKey dev UART_SERVICE UART_DATA_TX
  ({ st with notificationListeners := addListenerKey st.notificationListeners key },
    [Ev.addListener key, Ev.startNotifications key])

/-- `listenToInputServices`: accelerometer failures propagate; button A,
button B and UART failures are caught and logged. -/
def listenToInputServices (dev : String) (o : ConnectOracle) (st : SessionState) :
    Option StepError × SessionState × List Ev :=
  let (err, st1, evs1) := listenToAccelerometer dev o st
  match err with
  | some e => (some e, st1, evs1)
  | none =>
    let (st2, evs2) := listenToButton dev BUTTON_A st1
    let (st3, evs3) := listenToButton dev BUTTON_B st2
    let (st4, evs4) := listenToUART dev st3
    (none, st4, evs1 ++ evs2 ++ evs3 ++ evs4)

/-- `listenToOutputServices`: resolve (store) the three output
characteristic handles, then subscribe to UART; a UART subscription failure
propagates — after the handles were already stored. -/
def resolvedOutputCharacteristics (dev : String) : OutputCharacteristics :=
  { io := { uuid := IO_DATA, service := IO_SERVICE, deviceId := dev },
    matrix := { uuid := LED_MATRIX_STATE, service := LED_SERVICE, deviceId := dev },
    uart := { uuid := UART_DATA_RX, service := UART_SERVICE, deviceId := dev } }

/-- `listenToOutputServices` body continued: store the handles, subscribe. -/
def listenToOutputServices (dev : String) (o : ConnectOracle) (st : SessionState) :
    Option StepError × SessionState × List Ev :=
  let st1 := { st with outputCharacteristics := some (resolvedOutputCharacteristics dev) }
  let (st2, evs) := listenToUART dev st1
  ((if o.uartOutputStartOk then none else some StepError.uartOutputFailed), st2, evs)

/-- `Set.add` on `inUseAs`. -/
def addInUse (l : List DeviceRequestState) (s : DeviceRequestState) :
    List DeviceRequestState :=
  if l.contains s then l else l ++ [s]

/-- The body of `connect`'s `try` block (source lines 201–426), returning
the step error that was thrown (if any), the session state as mutated up to
that point, and the trace.  Notable source behaviours preserved here: the
device-enabled and connected-devices probes swallow their own errors; when
the device is reported already connected the raw connect loop is skipped
entirely; after the loop, `if (lastError && !this.isConnected) throw
lastError` re-throws the last attempt error whenever any attempt failed and
the `isConnected` flag was not already set on entry — even though a later
attempt succeeded and the loop was exited via its success `break`. -/
def connectBody (states : List DeviceRequestState) (st : SessionState) (o : ConnectOracle) :
    Option StepError × SessionState × List Ev :=
  match st.deviceId with
  | none => (some StepError.deviceIdMissing, st, [])
  | some dev =>
    if !o.initializeOk then (some StepError.initializeFailed, st, [Ev.initializePlugin])
    else
      let evs0 : List Ev := [Ev.initializePlugin, Ev.checkEnabled, Ev.getConnectedDevices]
      let link : Option StepError × List Ev :=
        if o.alreadyConnected then (none, [])
        else
          let (r, levs) := rawConnectLoopFrom o 0 (maxConnectRetries + 1)
          match r with
          | none => (some StepError.rawConnectFailed, levs)
          | some k =>
            if k != 0 && !st.isConnected then (some StepError.staleLastError, levs)
            else (none, levs)
      match link with
      | (some e, levs) => (some e, st, evs0 ++ levs)
      | (none, levs) =>
        let st1 := { st with isConnected := true }
        let evs1 := evs0 ++ levs ++ [Ev.waitMs 500, Ev.discoverServices, Ev.waitMs 300]
        match getModelNumberStep o with
        | (some e, _, mevs) => (some e, st1, evs1 ++ mevs)
        | (none, version, mevs) =>
          let evs2 := evs1 ++ mevs ++ states.map Ev.stateOnConnected
          let inputPart :=
            if states.contains DeviceRequestState.input then listenToInputServices dev o st1
            else (none, st1, [])
          match inputPart with
          | (some e, st2, ievs) => (some e, st2, evs2 ++ ievs)
          | (none, st2, ievs) =>
            let outputPart :=
              if states.contains DeviceRequestState.output then
                listenToOutputServices dev o st2
              else (none, st2, [])
            match outputPart with
            | (some e, st3, oevs) => (some e, st3, evs2 ++ ievs ++ oevs)
            | (none, st3, oevs) =>
              let st4 := { st3 with inUseAs := states.foldl addInUse st3.inUseAs }
              (none, st4,
                evs2 ++ ievs ++ oevs
                  ++ states.map (fun s => Ev.stateOnAssigned s version)
                  ++ states.map Ev.stateOnReady)

/-- `connect`'s `finally` block: clear `connecting` and `finalAttempt`,
decrement the reentrancy counter. -/
def connectFinally (st : SessionState) : SessionState :=
  { st with
    connecting := false, finalAttempt := false,
    duringExplicitConnectDisconnect := st.duringExplicitConnectDisconnect - 1 }

/-- On entering `connect` past the guard: increment the reentrancy counter
and set `connecting`. -/
def connectEntryState (st : SessionState) : SessionState :=
  { st with
    duringExplicitConnectDisconnect := st.duringExplicitConnectDisconnect + 1,
    connecting := true }

/-- `connect(...states)` from the source: the reentrancy guard returns
immediately (resolving, not rejecting) while a connect/disconnect is in
flight; otherwise the counter is incremented, the body runs, and on any body
error the session is torn down with `disconnectInternal(false)` and the one
normalized error is thrown; the `finally` runs on both paths. -/
def connect (states : List DeviceRequestState) (st : SessionState) (o : ConnectOracle) :
    Option ThrownError × SessionState × List Ev :=
  if st.duringExplicitConnectDisconnect != 0 then (none, st, [])
  else
    match connectBody states (connectEntryState st) o with
    | (none, st2, evs) => (none, connectFinally st2, evs)
    | (some _, st2, evs) =>
      let (st3, devs) := disconnectInternal false true st2 o
      (some ThrownError.failedToEstablish, connectFinally st3, evs ++ devs)

/-- `queueAction` at session level: the enqueued action is processed against
the session's current `outputCharacteristics`. -/
def sessionQueueAction (st : SessionState) (a : QueuedAction) : SessionState × List QEv :=
  let (m, evs) := queueAction st.outputCharacteristics st.queueMachine a
  ({ st with queueMachine := m }, evs)

/-- An oracle on which every plugin call succeeds. -/
def allOkOracle : ConnectOracle :=
  { initializeOk := true, alreadyConnected := false,
    rawConnectOk := fun _ => true, modelNumberRead := fun _ => some 2,
    accelStartOk := true, buttonAStartOk := true, buttonBStartOk := true,
    uartInputStartOk := true, uartOutputStartOk := true, transportDisconnectOk := true }

/-- A freshly constructed session (all fields as initialized by the class). -/
def freshState (dev : String) : SessionState :=
  { inUseAs := [], outputCharacteristics := none, deviceId := some dev,
    duringExplicitConnectDisconnect := 0, connecting := false, isReconnect := false,
    finalAttempt := false, isConnected := false, notificationListeners := [],
    reconnectCooldownArmed := false, pinStateCounters := [], queueMachine := idleQueue }

/-- A session with a connect/disconnect currently in flight. -/
def busySessionState : SessionState :=
  { freshState "dev-1" with duringExplicitConnectDisconnect := 1 }

/-- Oracle on which the raw `plugin.connect` throws on attempts 0 and 1 and
succeeds on attempt 2 (the last attempt of the retry budget). -/
def thirdTryOracle : ConnectOracle :=
  { allOkOracle with rawConnectOk := fun n => n == 2 }

/-- Oracle on which both model-number reads throw. -/
def modelFailOracle : ConnectOracle :=
  { allOkOracle with modelNumberRead := fun _ => none }

/-- The session state after a fully successful `connect` for both roles. -/
def readySessionState : SessionState :=
  (connect [DeviceRequestState.input, DeviceRequestState.output]
    (freshState "dev-1") allOkOracle).2.1

/-- A connected session with one stored notification listener. -/
def connectedSessionState : SessionState :=
  { freshState "dev-1" with
    inUseAs := [DeviceRequestState.input],
    isConnected := true,
    notificationListeners := [notifKey "dev-1" ACCEL_SERVICE ACCEL_DATA] }

/-- Event classifiers for trace-order properties. -/
def isRemoveListener : Ev → Bool
  | Ev.removeListener _ => true
  | _ => false

/-- Whether an event is the low-level transport disconnect call. -/
def isTransportDisconnect : Ev → Bool
  | Ev.transportDisconnect => true
  | _ => false

/-- Whether an event is a raw low-level `plugin.connect` invocation. -/
def isRawConnect : Ev → Bool
  | Ev.rawConnect _ => true
  | _ => false

/-- The ordering the claim asserts for the disconnect path: every
notification-listener removal occurs strictly before the first low-level
transport disconnect call of the trace (no removal at or after it). -/
def removalsPrecedeTransportDisconnect (tr : List Ev) : Bool :=
  ((tr.dropWhile (fun e => !isTransportDisconnect e)).filter isRemoveListener).isEmpty

/-- The opposite ordering: no listener removal occurs before the first
low-level transport disconnect call of the trace. -/
def transportDisconnectPrecedesRemovals (tr : List Ev) : Bool :=
  ((tr.takeWhile (fun e => !isTransportDisconnect e)).filter isRemoveListener).isEmpty

/-- Round trip on a single row of five cells. -/
theorem decodeRow_encodeRow :
    ∀ a b c d e : Bool, decodeRow (encodeRow [a, b, c, d, e]) = [a, b, c, d, e] := by
  decide

/-- C1: the claim states that for any `setPin` call sequence the number of
physical writes (calls to `setPinInternal`) equals the number of net
`0 → 1` / `1 → 0` edge transitions of the pin's activation counter, and in
particular that two "on" calls followed by one "off" call issue exactly one
physical write. Evaluating the code at that very sequence shows otherwise:
the counter runs `0 → 1 → 2 → 1`, a single `0 → 1` edge, but `setPin`
issues two physical writes — the first "on" *and* the final "off" (the
`changed` test `stateCounter === 0 || stateCounter === 1` also fires when an
"off" call brings the counter from 2 down to 1, writing the pin low while
one activation is still outstanding). -/
theorem setPin_on_on_off_two_writes_one_edge :
    (runSetPins 0 [true, true, false] []).2 = [true, false] ∧
      countEdges (counterTrace 0 [true, true, false] []) = 1 ∧
      counterTrace 0 [true, true, false] [] = [0, 1, 2, 1] := by
  decide

/-- C9: encoding any 5×5 boolean grid with the `setLeds` encoder into the
5-byte LED matrix payload and decoding the payload back (each byte's low
5 bits one row, MSB-first column order) reproduces the grid exactly. -/
theorem setLeds_encode_decode_roundtrip
    (b0 b1 b2 b3 b4 b5 b6 b7 b8 b9 b10 b11 b12 b13 b14
     b15 b16 b17 b18 b19 b20 b21 b22 b23 b24 : Bool) :
    decodeLeds (setLedsBytes
      [b0, b1, b2, b3, b4, b5, b6, b7, b8, b9, b10, b11, b12, b13, b14,
       b15, b16, b17, b18, b19, b20, b21, b22, b23, b24]) =
      [b0, b1, b2, b3, b4, b5, b6, b7, b8, b9, b10, b11, b12, b13, b14,
       b15, b16, b17, b18, b19, b20, b21, b22, b23, b24] := by
  show decodeLeds
      [encodeRow [b0, b1, b2, b3, b4], encodeRow [b5, b6, b7, b8, b9],
       encodeRow [b10, b11, b12, b13, b14], encodeRow [b15, b16, b17, b18, b19],
       encodeRow [b20, b21, b22, b23, b24]] = _
  simp only [decodeLeds, List.map_cons, List.map_nil, List.flatten_cons, List.flatten_nil,
    decodeRow_encodeRow, List.append_nil, List.cons_append, List.nil_append]

/-- C8 counterexample: the claim asserts that the decode-and-dispatch path
never throws, even on a zero-length payload.  But the button listener reads
`dataView.getUint8(0)` unguarded, so a notification carrying an empty hex
string (which `valueToDataView` normalizes to an empty buffer) makes the
callback throw a `RangeError`. -/
theorem button_listener_throws_on_empty_payload :
    buttonListenerBody (BleValue.hexStr "") =
      Except.error "RangeError: offset outside the bounds of the DataView" := by
  rfl

/-- C8 amended: `valueToDataView` itself never throws and normalizes every
malformed shape to a byte sequence, and the UART listener tolerates any
payload; but the button listener throws exactly on payloads shorter than
1 byte and the accelerometer listener exactly on payloads shorter than the
6 bytes its three fixed-offset `Int16` reads need. -/
theorem decode_callbacks_throw_iff_payload_short (v : BleValue) :
    exceptOk (uartListenerBody v) = true ∧
      (exceptOk (buttonListenerBody v) = true ↔ 1 ≤ (valueToDataView v).length) ∧
      (exceptOk (accelListenerBody v) = true ↔ 6 ≤ (valueToDataView v).length) := by
  refine ⟨rfl, ?_, ?_⟩
  · rcases hb : valueToDataView v with _ | ⟨a, l⟩ <;>
      simp [buttonListenerBody, getUint8, hb, exceptOk, Bind.bind, Except.bind, pure, Except.pure]
  · rcases hb : valueToDataView v with
      _ | ⟨a, _ | ⟨b, _ | ⟨c, _ | ⟨d, _ | ⟨e, _ | ⟨f, rest⟩⟩⟩⟩⟩⟩ <;>
      simp [accelListenerBody, getInt16LE, hb, exceptOk, Bind.bind, Except.bind, pure,
        Except.pure]

/-- While the queue is busy, `queueAction` only appends: the synchronous
re-entry into `processActionQueue` returns at the `busy` guard. -/
theorem enqueueAll_busy (h : OutputCharacteristics) (acts : List QueuedAction) :
    ∀ (q : List QueuedAction) (r : Option QueuedAction),
      enqueueAll (some h) { wq := { busy := true, queue := q }, running := r } acts =
        ({ wq := { busy := true, queue := q ++ acts }, running := r }, []) := by
  induction acts with
  | nil => intro q r; simp [enqueueAll]
  | cons a rest ih =>
    intro q r
    have hrec := ih (q ++ [a]) r
    simp [enqueueAll, queueAction, processActionQueue, hrec]

/-- Settling the promise of the running action drains the rest of the queue
in order, one action at a time. -/
theorem runToIdle_drain (h : OutputCharacteristics) :
    ∀ (q : List QueuedAction) (a : QueuedAction),
      runToIdle (some h) (q.length + 1)
          { wq := { busy := true, queue := q }, running := some a } =
        (idleQueue,
          (if a.ok then QEv.settledOk a.id else QEv.errorLogged a.id) :: drainEvs q) := by
  intro q
  induction q with
  | nil =>
    intro a
    simp [runToIdle, settleRunning, processActionQueue, drainEvs, idleQueue]
  | cons b bs ih =>
    intro a
    have ihb := ih b
    simp only [List.length_cons]
    generalize hk : bs.length + 1 = k at ihb ⊢
    simp [runToIdle, settleRunning, processActionQueue, drainEvs, ihb]

/-- The observable trace of the whole scenario is the in-order drain. -/
theorem queueScenario_eq_drainEvs (h : OutputCharacteristics) (acts : List QueuedAction) :
    queueScenario (some h) acts = drainEvs acts := by
  cases acts with
  | nil => rfl
  | cons a rest =>
    have h1 := enqueueAll_busy h rest [] (some a)
    have h2 := runToIdle_drain h rest a
    simp [queueScenario, enqueueAll, queueAction, processActionQueue, idleQueue, drainEvs,
      h1, h2]

/-- Drained actions start in enqueue order. -/
theorem startedIds_drainEvs (acts : List QueuedAction) :
    startedIds (drainEvs acts) = acts.map (·.id) := by
  induction acts with
  | nil => rfl
  | cons a rest ih => cases ha : a.ok <;> simp [drainEvs, startedIds, ha, ih]

/-- Exactly the rejecting actions get their error logged, in order. -/
theorem erroredIds_drainEvs (acts : List QueuedAction) :
    erroredIds (drainEvs acts) = (acts.filter (fun a => !a.ok)).map (·.id) := by
  induction acts with
  | nil => rfl
  | cons a rest ih => cases ha : a.ok <;> simp [drainEvs, erroredIds, ha, ih]

/-- A drain never starts an action while another is in flight. -/
theorem oneAtATime_drainEvs (acts : List QueuedAction) :
    oneAtATimeFrom false (drainEvs acts) = true := by
  induction acts with
  | nil => rfl
  | cons a rest ih => cases ha : a.ok <;> simp [drainEvs, oneAtATimeFrom, ha, ih]

/-- C7: with resolved output handles, the write queue executes at most one
action at a time, in strict enqueue (FIFO) order, and a rejecting action
logs its error and still advances the queue: for any batch enqueued
synchronously (in particular `A, B, C` with `B` rejecting) the executed
sequence is exactly the enqueue order, never reordered and never with a
later action skipped, and exactly the rejecting actions are logged. -/
theorem queue_fifo_one_at_a_time_failure_advances
    (h : OutputCharacteristics) (acts : List QueuedAction) :
    startedIds (queueScenario (some h) acts) = acts.map (·.id) ∧
      oneAtATime (queueScenario (some h) acts) = true ∧
      erroredIds (queueScenario (some h) acts) = (acts.filter (fun a => !a.ok)).map (·.id) := by
  rw [queueScenario_eq_drainEvs, oneAtATime]
  exact ⟨startedIds_drainEvs acts, oneAtATime_drainEvs acts, erroredIds_drainEvs acts⟩

/-- `disconnectInternal` always ends with the listener map cleared. -/
theorem disconnectInternal_clears_listeners (u b : Bool) (st : SessionState)
    (o : ConnectOracle) :
    (disconnectInternal u b st o).1.notificationListeners = [] := by
  unfold disconnectInternal
  split <;> split <;> simp

/-- `disconnectInternal`'s trace records the (non-)user-triggered teardown. -/
theorem disconnectInternal_invoked_mem (u b : Bool) (st : SessionState)
    (o : ConnectOracle) :
    Ev.disconnectInvoked u ∈ (disconnectInternal u b st o).2 := by
  unfold disconnectInternal
  split <;> simp

/-- `disconnectInternal` never touches the resolved output characteristic
handles nor the write queue. -/
theorem disconnectInternal_preserves_handles (u b : Bool) (st : SessionState)
    (o : ConnectOracle) :
    (disconnectInternal u b st o).1.outputCharacteristics = st.outputCharacteristics ∧
      (disconnectInternal u b st o).1.queueMachine = st.queueMachine := by
  cases hdev : st.deviceId <;> cases hconn : st.isConnected <;>
    simp [disconnectInternal, hdev, hconn]
  split <;> simp

/-- C3: while a connect or disconnect is already in flight for the session
(the reentrancy counter `duringExplicitConnectDisconnect` is non-zero),
`connect` returns without error, performs no transport operations (empty
trace — in particular zero raw `plugin.connect` attempts) and leaves the
session state unchanged. -/
theorem connect_reentrant_call_is_noop (states : List DeviceRequestState)
    (st : SessionState) (o : ConnectOracle)
    (h : st.duringExplicitConnectDisconnect ≠ 0) :
    connect states st o = (none, st, []) := by
  unfold connect
  simp [h]

/-- Witness for C3 at a concrete in-flight session. -/
theorem connect_reentrant_call_is_noop_witness :
    connect [DeviceRequestState.input] busySessionState allOkOracle =
      (none, busySessionState, []) :=
  connect_reentrant_call_is_noop _ _ _ (by decide)

/-- C4: the claim states that when the raw connect throws twice and succeeds
on the third attempt, `connect()` resolves successfully (with exactly 3
low-level connect invocations).  Evaluating the code on that schedule from a
fresh session shows the 3 raw invocations — but `connect()` nevertheless
rejects: after the loop breaks on the successful third attempt, the
post-loop guard `if (lastError && !this.isConnected) throw lastError`
re-throws the second attempt's error because `this.isConnected` is not set
until after the retry block, so the normalized connect failure is thrown
despite the link having just been established. -/
theorem connect_third_attempt_success_still_rejects :
    thirdTryOracle.rawConnectOk 2 = true ∧
      ((connect [DeviceRequestState.input] (freshState "dev-1") thirdTryOracle).2.2.filter
          isRawConnect).length = 3 ∧
      (connect [DeviceRequestState.input] (freshState "dev-1") thirdTryOracle).1 =
        some ThrownError.failedToEstablish := by
  refine ⟨rfl, rfl, rfl⟩

/-- C2 counterexample: the claim states that listener removal always happens
before the low-level transport disconnect, never after.  Running the
user-triggered disconnect on a connected session with one stored listener
produces the opposite order — the transport disconnect is issued first (the
source disconnects at lines 457–459 and only then walks the listener map at
lines 467–478). -/
theorem disconnect_removes_listeners_after_transport_cex :
    (disconnect connectedSessionState allOkOracle).2 =
        [Ev.disconnectInvoked true, Ev.transportDisconnect,
          Ev.removeListener (notifKey "dev-1" ACCEL_SERVICE ACCEL_DATA),
          Ev.stateOnDisconnected DeviceRequestState.input ReconnectFlag.noAuto] ∧
      removalsPrecedeTransportDisconnect (disconnect connectedSessionState allOkOracle).2 =
        false := by
  refine ⟨rfl, rfl⟩

/-- C2 amended: in every disconnect run that issues the low-level transport
disconnect (the session is connected and has a device id), that call
precedes all notification-listener removals — the removals happen after it,
the reverse of the claimed order. -/
theorem disconnect_transport_call_precedes_removals (u b : Bool) (st : SessionState)
    (o : ConnectOracle) (hc : st.isConnected = true) (hd : st.deviceId.isSome = true) :
    transportDisconnectPrecedesRemovals (disconnectInternal u b st o).2 = true := by
  obtain ⟨d, hd'⟩ := Option.isSome_iff_exists.mp hd
  unfold disconnectInternal
  cases hok : o.transportDisconnectOk <;>
    simp [hd', hc, transportDisconnectPrecedesRemovals, isTransportDisconnect,
      isRemoveListener]

/-- Witness for the amended C2 at a concrete connected session. -/
theorem disconnect_transport_call_precedes_removals_witness :
    transportDisconnectPrecedesRemovals
      (disconnectInternal true true connectedSessionState allOkOracle).2 = true :=
  disconnect_transport_call_precedes_removals true true connectedSessionState allOkOracle
    rfl rfl

/-- C6 counterexample: the claim states that after `disconnect()` resolves
the resolved output characteristic handles are cleared so that an action
enqueued afterwards is dropped and the queue reset.  Running `disconnect`
on the state reached by a successful two-role `connect` leaves the handles
in place, and a write action enqueued afterwards is executed against the
dead transport instead of being dropped. -/
theorem disconnect_keeps_handles_queued_action_still_runs_cex :
    ((disconnect readySessionState allOkOracle).1.outputCharacteristics).isSome = true ∧
      (sessionQueueAction (disconnect readySessionState allOkOracle).1
          { id := 7, ok := true }).2 = [QEv.started 7] := by
  refine ⟨rfl, rfl⟩

/-- C6 amended: `disconnectInternal` leaves `outputCharacteristics` and the
write queue untouched; consequently a write action enqueued after the
disconnect on an idle queue is started against the transport (the
queue-reset branch of `processActionQueue` only fires when the handles were
never resolved). -/
theorem disconnect_preserves_handles_action_still_attempted (u b : Bool)
    (st : SessionState) (o : ConnectOracle) (a : QueuedAction)
    (hq : st.queueMachine = idleQueue) (hh : st.outputCharacteristics.isSome = true) :
    (disconnectInternal u b st o).1.outputCharacteristics = st.outputCharacteristics ∧
      (sessionQueueAction (disconnectInternal u b st o).1 a).2 = [QEv.started a.id] := by
  obtain ⟨hpres, hqueue⟩ := disconnectInternal_preserves_handles u b st o
  obtain ⟨h, hh'⟩ := Option.isSome_iff_exists.mp hh
  refine ⟨hpres, ?_⟩
  simp [sessionQueueAction, queueAction, processActionQueue, hpres, hqueue, hq, hh',
    idleQueue]

/-- Witness for the amended C6 at the post-connect session. -/
theorem disconnect_preserves_handles_action_still_attempted_witness :
    (disconnectInternal true true readySessionState allOkOracle).1.outputCharacteristics =
        readySessionState.outputCharacteristics ∧
      (sessionQueueAction (disconnectInternal true true readySessionState allOkOracle).1
          { id := 7, ok := true }).2 = [QEv.started 7] :=
  disconnect_preserves_handles_action_still_attempted true true readySessionState
    allOkOracle { id := 7, ok := true } rfl rfl

/-- `disconnectInternal` restores the reentrancy counter: the `finally`
after the transport try decrements exactly the one increment made on
entry. -/
theorem disconnectInternal_during (u b : Bool) (st : SessionState) (o : ConnectOracle) :
    (disconnectInternal u b st o).1.duringExplicitConnectDisconnect =
      st.duringExplicitConnectDisconnect := by
  cases hdev : st.deviceId <;> cases hconn : st.isConnected <;>
    simp [disconnectInternal, hdev, hconn]
  split <;> simp

/-- The input-services subscription step never touches the reentrancy
counter. -/
theorem listenToInputServices_during (dev : String) (o : ConnectOracle)
    (st : SessionState) :
    (listenToInputServices dev o st).2.1.duringExplicitConnectDisconnect =
      st.duringExplicitConnectDisconnect := by
  cases ha : o.accelStartOk <;>
    simp [listenToInputServices, listenToAccelerometer, listenToButton, listenToUART, ha]

/-- The output-services subscription step never touches the reentrancy
counter. -/
theorem listenToOutputServices_during (dev : String) (o : ConnectOracle)
    (st : SessionState) :
    (listenToOutputServices dev o st).2.1.duringExplicitConnectDisconnect =
      st.duringExplicitConnectDisconnect := by
  cases ha : o.uartOutputStartOk <;>
    simp [listenToOutputServices, listenToUART, ha]

/-- The whole `try` body of `connect` never touches the reentrancy
counter, on any oracle and along every failure/success path. -/
theorem connectBody_during (states : List DeviceRequestState) (st : SessionState)
    (o : ConnectOracle) :
    (connectBody states st o).2.1.duringExplicitConnectDisconnect =
      st.duringExplicitConnectDisconnect := by
  unfold connectBody
  split
  · rfl
  rename_i dev hdev
  cases hinit : o.initializeOk with
  | false => simp [hinit]
  | true =>
    have hin : ∀ stx : SessionState,
        ((if states.contains DeviceRequestState.input
            then listenToInputServices dev o stx
            else (none, stx, [])).2.1).duringExplicitConnectDisconnect =
          stx.duringExplicitConnectDisconnect := by
      intro stx
      by_cases hc : DeviceRequestState.input ∈ states <;>
        simp [hc, listenToInputServices_during]
    have hout : ∀ stx : SessionState,
        ((if states.contains DeviceRequestState.output
            then listenToOutputServices dev o stx
            else (none, stx, [])).2.1).duringExplicitConnectDisconnect =
          stx.duringExplicitConnectDisconnect := by
      intro stx
      by_cases hc : DeviceRequestState.output ∈ states <;>
        simp [hc, listenToOutputServices_during]
    simp only [hinit, Bool.not_true, Bool.false_eq_true, if_false]
    split
    · rfl
    split
    · rfl
    split
    · rename_i e st2 ievs heq3
      have h3 := hin { st with isConnected := true }
      rw [heq3] at h3
      simpa using h3
    rename_i st2 ievs heq3
    have h3 := hin { st with isConnected := true }
    rw [heq3] at h3
    simp only at h3
    split
    · rename_i e st3 oevs heq4
      have h4 := hout st2
      rw [heq4] at h4
      simp only at h4
      simp only []
      rw [h4, h3]
    · rename_i st3 oevs heq4
      have h4 := hout st2
      rw [heq4] at h4
      simp only at h4
      simp only []
      rw [h4, h3]

/-- `connect` restores the reentrancy counter on every path: the guard path
leaves it untouched, and otherwise the entry increment is undone by the
`finally` decrement, the teardown's own increment/decrement cancelling as
well. -/
theorem connect_during (states : List DeviceRequestState) (st : SessionState)
    (o : ConnectOracle) :
    (connect states st o).2.1.duringExplicitConnectDisconnect =
      st.duringExplicitConnectDisconnect := by
  by_cases hg : st.duringExplicitConnectDisconnect = 0
  · have hguard : (st.duringExplicitConnectDisconnect != 0) = false := by simp [hg]
    rcases hcb : connectBody states (connectEntryState st) o with ⟨err, st2, evs⟩
    have hb := connectBody_during states (connectEntryState st) o
    rw [hcb] at hb
    simp [connectEntryState] at hb
    cases err with
    | none =>
      simp [connect, hguard, hcb, connectFinally]
      omega
    | some e =>
      rcases hdi : disconnectInternal false true st2 o with ⟨st3, devs⟩
      have hd := disconnectInternal_during false true st2 o
      rw [hdi] at hd
      simp only at hd
      simp [connect, hguard, hcb, hdi, connectFinally]
      omega
  · have hguard : (st.duringExplicitConnectDisconnect != 0) = true := by simp [hg]
    simp [connect, hguard]

/-- C10: every invocation of `connect` or of the internal disconnect path
balances the reentrancy counter `duringExplicitConnectDisconnect`: each
increment is matched by exactly one decrement when the call settles, on the
success and the failure path alike, so after any call — including a
rejecting `connect` — the counter returns to its prior value and the
idempotent guard does not permanently turn later `connect` calls into
no-ops. -/
theorem reentrancy_counter_balanced (states : List DeviceRequestState)
    (st : SessionState) (o : ConnectOracle) (u b : Bool) :
    (connect states st o).2.1.duringExplicitConnectDisconnect =
        st.duringExplicitConnectDisconnect ∧
      (disconnectInternal u b st o).1.duringExplicitConnectDisconnect =
        st.duringExplicitConnectDisconnect :=
  ⟨connect_during states st o, disconnectInternal_during u b st o⟩

/-- C5: whenever any step of the multi-step connect sequence throws —
quantified over every oracle, i.e. every combination of failing steps —
`connect` first performs the internal non-user-triggered teardown
(`disconnectInternal(false)`, visible in the trace, leaving the listener map
cleared) and then rejects with the single normalized
"Failed to establish a connection!" error, never with the underlying
step-level error. -/
theorem connect_failure_is_normalized_after_teardown (states : List DeviceRequestState)
    (st : SessionState) (o : ConnectOracle) (e : ThrownError)
    (h : (connect states st o).1 = some e) :
    e = ThrownError.failedToEstablish ∧
      Ev.disconnectInvoked false ∈ (connect states st o).2.2 ∧
      (connect states st o).2.1.notificationListeners = [] := by
  by_cases hg : st.duringExplicitConnectDisconnect = 0
  · have hguard : (st.duringExplicitConnectDisconnect != 0) = false := by simp [hg]
    rcases hcb : connectBody states (connectEntryState st) o with ⟨err, st2, evs⟩
    cases err with
    | none => simp [connect, hguard, hcb] at h
    | some se =>
      rcases hdi : disconnectInternal false true st2 o with ⟨st3, devs⟩
      have hclr := disconnectInternal_clears_listeners false true st2 o
      have hmem := disconnectInternal_invoked_mem false true st2 o
      rw [hdi] at hclr hmem
      simp only at hclr hmem
      simp [connect, hguard, hcb, hdi, connectFinally] at h ⊢
      exact ⟨h.symm, Or.inr hmem, hclr⟩
  · have hguard : (st.duringExplicitConnectDisconnect != 0) = true := by simp [hg]
    simp [connect, hguard] at h

/-- Witness for C5: a run on which both model-number reads throw fails with
the normalized error after the internal teardown. -/
theorem connect_failure_is_normalized_after_teardown_witness :
    ThrownError.failedToEstablish = ThrownError.failedToEstablish ∧
      Ev.disconnectInvoked false ∈
        (connect [DeviceRequestState.input] (freshState "dev-1") modelFailOracle).2.2 ∧
      (connect [DeviceRequestState.input] (freshState "dev-1")
          modelFailOracle).2.1.notificationListeners = [] :=
  connect_failure_is_normalized_after_teardown [DeviceRequestState.input]
    (freshState "dev-1") modelFailOracle ThrownError.failedToEstablish rfl

end MLTrainer
